import Mathlib

/-!
Shallow embedding of the series-transformation logic of the repository
`my_streamlit_app` (three Streamlit dashboard scripts:
`finance_charts_app.py`, `finance_charts_real_data.py`,
`professional_trading_terminal.py`).

Modelling conventions:
* A pandas float cell is `Option ℚ`: `none` is NaN (a missing value),
  `some q` a finite value.  Results of arithmetic that can be non-finite
  (the unguarded division `change_abs / prev_price`) live in `FloatLike`,
  which adds the IEEE-754 special values `+inf`, `-inf`, `nan` to the
  finite rationals (signed zero is collapsed; no rounding is modelled,
  which is exact for the operations that appear in the scripts).
* A dataframe is column-oriented: the renamed columns produced by
  `get_real_data` (`date`, `Open`, `High`, `Low`, `price`, `Volume`), where
  `Open/High/Low/Volume` may be absent as whole columns (line-only
  sources), plus the extra columns added later by assignment
  (`df[f'MA{period}'] = ...`), keyed here by the MA period.
* All columns of one dataframe have the same number of rows; `df.empty`
  is "zero rows".
-/

namespace StreamlitFin

/-- IEEE-754-style scalar domain for the unguarded float arithmetic in the
scripts: a finite rational or one of the special values. -/
inductive FloatLike where
  | fin (q : ℚ)
  | posInf
  | negInf
  | nan
deriving DecidableEq

/-- A `FloatLike` is finite when it is neither an infinity nor NaN. -/
def FloatLike.isFinite : FloatLike → Bool
  | .fin _ => true
  | _ => false

/-- The Python comparison `x < 0` on a float (NaN compares false). -/
def FloatLike.lt0 : FloatLike → Bool
  | .fin q => decide (q < 0)
  | .negInf => true
  | .posInf => false
  | .nan => false

/-- Reading one pandas cell as a float: NaN for a missing value. -/
def fofOpt : Option ℚ → FloatLike
  | some q => .fin q
  | none => .nan

/-- IEEE-754 subtraction on `FloatLike` (`current_price - prev_price`). -/
def fsub : FloatLike → FloatLike → FloatLike
  | .nan, _ => .nan
  | _, .nan => .nan
  | .fin a, .fin b => .fin (a - b)
  | .fin _, .posInf => .negInf
  | .fin _, .negInf => .posInf
  | .posInf, .posInf => .nan
  | .posInf, _ => .posInf
  | .negInf, .negInf => .nan
  | .negInf, _ => .negInf

/-- IEEE-754 division on `FloatLike` (`change_abs / prev_price`): dividing a
finite nonzero value by zero yields a signed infinity, `0 / 0` yields NaN —
numpy emits a warning but no exception, so the value flows onward. -/
def fdiv : FloatLike → FloatLike → FloatLike
  | .nan, _ => .nan
  | _, .nan => .nan
  | .fin a, .fin b =>
      if b = 0 then (if 0 < a then .posInf else if a < 0 then .negInf else .nan)
      else .fin (a / b)
  | .fin _, _ => .fin 0
  | .posInf, .fin b => if b < 0 then .negInf else .posInf
  | .negInf, .fin b => if b < 0 then .posInf else .negInf
  | _, _ => .nan

/-- Multiplication by the positive literal `100` (`... * 100`). -/
def fmul100 : FloatLike → FloatLike
  | .fin q => .fin (q * 100)
  | .posInf => .posInf
  | .negInf => .negInf
  | .nan => .nan

/-- The trailing window pandas uses at row `i` for `rolling(window=p)`:
rows `[i-p+1, i]` clipped at the start of the column. -/
def windowAt (p : ℕ) (xs : List (Option ℚ)) (i : ℕ) : List (Option ℚ) :=
  (xs.drop (i + 1 - p)).take p

/-- Embeds `column.rolling(window=p).mean()`
(`professional_trading_terminal.py:141,153`): row `i` holds the mean of the
trailing `p` cells when at least `p` rows precede-or-include `i` and none of
them is NaN, and NaN (`none`) otherwise (pandas' default
`min_periods = window`). -/
def rollingMean (p : ℕ) (xs : List (Option ℚ)) : List (Option ℚ) :=
  (List.range xs.length).map fun i =>
    if p ≤ i + 1 ∧ (windowAt p xs i).all Option.isSome then
      some (((windowAt p xs i).filterMap id).sum / (p : ℚ))
    else none

/-- A dataframe as the scripts use it after `get_real_data`'s renaming:
fixed named columns (whole columns may be absent) plus the extra
moving-average columns later assigned onto it, keyed by MA period. -/
structure DF where
  dateCol : List ℚ
  openCol : Option (List (Option ℚ))
  highCol : Option (List (Option ℚ))
  lowCol : Option (List (Option ℚ))
  priceCol : List (Option ℚ)
  volumeCol : Option (List (Option ℚ))
  extra : List (ℕ × List (Option ℚ))
deriving DecidableEq

/-- `df.empty`: zero rows (all columns share the row count; the `price`
column is always present, so its length is the row count). -/
def DF.isEmpty (df : DF) : Bool := df.priceCol.isEmpty

/-- `has_ohlc = all(col in df.columns for col in ['Open','High','Low','price'])`
(`professional_trading_terminal.py:83`; same check at
`finance_charts_real_data.py:66`); `price` is always present. -/
def DF.hasOHLC (df : DF) : Bool :=
  df.openCol.isSome && df.highCol.isSome && df.lowCol.isSome

/-- Pandas column assignment `df[col] = v`: overwrite the column in place
when the key exists, otherwise append it as the last column. -/
def setExtraCol (k : ℕ) (v : List (Option ℚ)) :
    List (ℕ × List (Option ℚ)) → List (ℕ × List (Option ℚ))
  | [] => [(k, v)]
  | e :: es => if e.1 = k then (k, v) :: es else e :: setExtraCol k v es

/-- Embeds the moving-average block of `create_professional_chart`
(`professional_trading_terminal.py:139-153`) as a state transformer on the
caller's dataframe: under `show_ma and len(df) > max(ma_period_1, ma_period_2)`
it assigns the two columns `MA{ma_period_1}` and `MA{ma_period_2}` onto `df`
(the same object the caller passed in), otherwise it leaves `df` untouched. -/
def applyMovingAverages (showMa : Bool) (maPeriod1 maPeriod2 : ℕ) (df : DF) : DF :=
  if showMa ∧ max maPeriod1 maPeriod2 < df.priceCol.length then
    let e1 := setExtraCol maPeriod1 (rollingMean maPeriod1 df.priceCol) df.extra
    let e2 := setExtraCol maPeriod2 (rollingMean maPeriod2 df.priceCol) e1
    { df with extra := e2 }
  else df

/-- One per-bar color of the volume loop
(`professional_trading_terminal.py:176-182`): gray when `Open` or `price`
is NaN at that row, otherwise green iff `price >= Open`. -/
def volColor (o c : Option ℚ) : String :=
  match o, c with
  | some ov, some cv => if ov ≤ cv then "#26A69A" else "#E53935"
  | _, _ => "#888888"

/-- Embeds the volume-color loop `for i in range(len(df))`
(`professional_trading_terminal.py:174-182`), one color per row of the
`Open`/`price` columns. -/
def colorsVolume (opens closes : List (Option ℚ)) : List String :=
  List.zipWith volColor opens closes

/-- One close-to-close color of the fallback loop
(`finance_charts_real_data.py:85-88`): green iff `price[i] >= price[i-1]`;
a NaN on either side compares false, giving red. -/
def c2cColor (prev cur : Option ℚ) : String :=
  match prev, cur with
  | some pv, some cv => if pv ≤ cv then "#26A69A" else "#E53935"
  | _, _ => "#E53935"

/-- Embeds the close-only fallback loop `for i in range(1, len(df))`
(`finance_charts_real_data.py:83-88`): one color per pair of adjacent rows,
so the list starts at bar 1. -/
def closeToCloseColors (prices : List (Option ℚ)) : List String :=
  List.zipWith c2cColor prices prices.tail

/-- A plotly trace as the scripts build them: a candlestick over the OHLC
columns with one increasing and one decreasing color, or a line
(`go.Scatter(mode='lines')`) over the `price` column with a single line
color and a single fill color for the whole trace. -/
inductive Trace where
  | candlestick (x : List ℚ) (o h l c : List (Option ℚ)) (incColor decColor : String)
  | scatterLine (x : List ℚ) (y : List (Option ℚ)) (lineColor fillColor : String)
deriving DecidableEq

/-- A figure annotation: the "no data" message, the watermark ticker name,
or the price label carrying the numeric summary. -/
inductive FigNote where
  | message (text : String)
  | watermark (tickerName : String)
  | priceLabel (currency : String) (currentPrice changePct changeAbs : FloatLike)
      (bg : String)
deriving DecidableEq

/-- A figure: its traces and annotations (layout styling is not modelled). -/
structure Fig where
  traces : List Trace
  annotations : List FigNote
deriving DecidableEq

/-- The placeholder figure built for a missing or empty dataframe
(`finance_charts_real_data.py:46-57`): no traces, one text annotation. -/
def placeholderFig : Fig :=
  { traces := [], annotations := [FigNote.message "Данные недоступны"] }

/-- Embeds `create_financial_chart` of `finance_charts_real_data.py:43-164`
restricted to the data-dependent content (traces and annotations):
`None`/empty input gives the placeholder; with OHLC columns a candlestick
trace over them; otherwise a line trace whose single color comes from the
sign of `change_pct` — the per-bar `colors` list computed in that branch
(lines 83-88) is never referenced afterwards, which the unused binding
mirrors. -/
def createFinancialChart (dfOpt : Option DF) (tickerName : String)
    (currentPrice changePct changeAbs : FloatLike) (currency : String) : Fig :=
  match dfOpt with
  | none => placeholderFig
  | some df =>
    if df.isEmpty then placeholderFig
    else
      let color := if changePct.lt0 then "#E53935" else "#26A69A"
      let traces :=
        if df.hasOHLC then
          [Trace.candlestick df.dateCol (df.openCol.getD []) (df.highCol.getD [])
            (df.lowCol.getD []) df.priceCol "#26A69A" "#E53935"]
        else
          let _colors := closeToCloseColors df.priceCol
          [Trace.scatterLine df.dateCol df.priceCol color
            (if changePct.lt0 then "rgba(229, 57, 53, 0.05)" else "rgba(38, 166, 154, 0.05)")]
      { traces := traces,
        annotations := [FigNote.watermark tickerName,
          FigNote.priceLabel currency currentPrice changePct changeAbs color] }

/-- Embeds `create_financial_chart` of `finance_charts_app.py:34-106`: always
a single line trace over `price`, colored by the sign of `change_pct`. -/
def createFinancialChartApp (df : DF) (tickerName : String)
    (currentPrice changePct changeAbs : FloatLike) (currency : String) : Fig :=
  let color := if changePct.lt0 then "#EF5350" else "#26A69A"
  { traces := [Trace.scatterLine df.dateCol df.priceCol color
      (if changePct.lt0 then "rgba(239, 83, 80, 0.1)" else "rgba(38, 166, 154, 0.1)")],
    annotations := [FigNote.watermark tickerName,
      FigNote.priceLabel currency currentPrice changePct changeAbs color] }

/-- The summary numbers each script computes before building a chart. -/
structure Summary where
  currentPrice : FloatLike
  prevPrice : FloatLike
  changeAbs : FloatLike
  changePct : FloatLike
deriving DecidableEq

/-- The reference-price strategy of the scripts:
`finance_charts_real_data.py:222` and
`professional_trading_terminal.py:467` use the first bar of the window
(`iloc[0]`), `finance_charts_app.py:115` uses `iloc[-25]`, i.e. the bar
`n = 25` positions before the end. -/
inductive ReferenceMode where
  | firstBar
  | offsetFromEnd (n : ℕ)
deriving DecidableEq

/-- The reference cell selected by a `ReferenceMode` (callers only apply it
to series long enough for the index to exist; pandas would raise
otherwise, so the out-of-range total extension is never exercised). -/
def referencePrice : ReferenceMode → List (Option ℚ) → Option ℚ
  | .firstBar, xs => xs.head?.getD none
  | .offsetFromEnd n, xs => (xs.get? (xs.length - n)).getD none

/-- Embeds the per-ticker summary block
(`finance_charts_real_data.py:221-224`,
`professional_trading_terminal.py:466-469`, and with
`ReferenceMode.offsetFromEnd 25` also `finance_charts_app.py:114-117`):
`current_price = price.iloc[-1]`, `prev_price` per the reference mode,
`change_abs = current_price - prev_price`,
`change_pct = (change_abs / prev_price) * 100` with no guard on
`prev_price == 0`. -/
def computeSummaryMode (m : ReferenceMode) (priceCol : List (Option ℚ)) : Summary :=
  let current := fofOpt (priceCol.getLast?.getD none)
  let prev := fofOpt (referencePrice m priceCol)
  let cAbs := fsub current prev
  { currentPrice := current, prevPrice := prev, changeAbs := cAbs,
    changePct := fmul100 (fdiv cAbs prev) }

/-- The summary as the two yfinance-backed scripts compute it (first bar of
the fetched window as reference). -/
def computeSummary : List (Option ℚ) → Summary :=
  computeSummaryMode .firstBar

/-- What one ticker column of the page shows: an error message
(`st.error`) or a chart figure. -/
inductive TickerRender where
  | errorMessage (name : String)
  | chart (fig : Fig)
deriving DecidableEq

/-- Embeds the per-ticker top-level path of
`finance_charts_real_data.py:218-236` (the same shape as
`professional_trading_terminal.py:463-505`): `get_real_data` yields either
`None` (fetch failure or empty history) or a dataframe; the guard
`data is not None and not data.empty` routes both `None` and an empty
dataframe to the error placeholder, and only otherwise computes the
summary and builds the chart. -/
def renderTickerColumn (fetch : Option DF) (name currency : String) : TickerRender :=
  match fetch with
  | some df =>
    if df.isEmpty then .errorMessage name
    else
      let s := computeSummary df.priceCol
      .chart (createFinancialChart (some df) name s.currentPrice s.changePct
        s.changeAbs currency)
  | none => .errorMessage name

/-! ## Helper lemmas -/

theorem rollingMean_length (p : ℕ) (xs : List (Option ℚ)) :
    (rollingMean p xs).length = xs.length := by
  simp [rollingMean]

theorem rollingMean_getElem? (p : ℕ) (xs : List (Option ℚ)) (i : ℕ)
    (h : i < xs.length) :
    (rollingMean p xs)[i]? =
      some (if p ≤ i + 1 ∧ (windowAt p xs i).all Option.isSome then
        some (((windowAt p xs i).filterMap id).sum / (p : ℚ)) else none) := by
  unfold rollingMean
  rw [List.getElem?_map, List.getElem?_range h]
  rfl

theorem filterMap_id_map_some (l : List ℚ) : (l.map some).filterMap id = l := by
  induction l with
  | nil => rfl
  | cons a t ih => simp [ih]

theorem windowAt_append (p i : ℕ) (xs T : List (Option ℚ)) (h : i < xs.length)
    (hp : p ≤ i + 1) : windowAt p (xs ++ T) i = windowAt p xs i := by
  unfold windowAt
  rw [List.drop_append_eq_append_drop]
  have h2 : i + 1 - p - xs.length = 0 := by omega
  rw [h2, List.drop_zero, List.take_append_eq_append_take]
  have h3 : (xs.drop (i + 1 - p)).length = xs.length - (i + 1 - p) := by simp
  have h4 : p - (xs.drop (i + 1 - p)).length = 0 := by omega
  rw [h4, List.take_zero, List.append_nil]

theorem zipWith_getElem? {α β γ : Type} (f : α → β → γ) :
    ∀ (xs : List α) (ys : List β) (i : ℕ),
      (List.zipWith f xs ys)[i]? =
        match xs[i]?, ys[i]? with
        | some a, some b => some (f a b)
        | _, _ => none
  | [], _, _ => by simp
  | _ :: _, [], _ => by simp
  | x :: xs, y :: ys, 0 => by simp
  | x :: xs, y :: ys, i + 1 => by
      simpa using zipWith_getElem? f xs ys i

/-! ## Claims -/

/-- C1: for every series of closes and every positive period `p`, the rolling
mean has the same length as the series; index `i` holds the arithmetic mean
of the closes over `[i-p+1, i]` whenever `i+1 ≥ p` and an absent value
(`none`, not zero, not an error) whenever `i+1 < p`; in particular a value
is present at every index `i ≥ p-1`, and on closes
`[100, 102, 101, 105, 110]` with `p = 3` the result is
`[absent, absent, 101, 308/3, 316/3]`. -/
theorem movingAverage_spec (closes : List ℚ) (p : ℕ) (hp : 0 < p) :
    (rollingMean p (closes.map some)).length = closes.length ∧
    (∀ i : ℕ, i < closes.length → p ≤ i + 1 →
      (rollingMean p (closes.map some))[i]? =
        some (some (((closes.drop (i + 1 - p)).take p).sum / (p : ℚ)))) ∧
    (∀ i : ℕ, i < closes.length → i + 1 < p →
      (rollingMean p (closes.map some))[i]? = some none) ∧
    rollingMean 3 ([100, 102, 101, 105, 110].map some) =
      [none, none, some 101, some (308/3), some (316/3)] := by
  refine ⟨by simp [rollingMean_length], ?_, ?_, ?_⟩
  · intro i hi hpi
    have hi' : i < (closes.map some).length := by simpa using hi
    rw [rollingMean_getElem? p _ i hi']
    have hw : windowAt p (closes.map some) i =
        ((closes.drop (i + 1 - p)).take p).map some := by
      simp [windowAt, List.map_drop, List.map_take]
    rw [hw]
    have hcond : p ≤ i + 1 ∧
        ((((closes.drop (i + 1 - p)).take p).map some).all Option.isSome) = true := by
      refine ⟨hpi, ?_⟩
      rw [List.all_eq_true]
      rintro x hx
      obtain ⟨a, -, rfl⟩ := List.mem_map.1 hx
      rfl
    rw [if_pos hcond, filterMap_id_map_some]
  · intro i hi hpi
    have hi' : i < (closes.map some).length := by simpa using hi
    rw [rollingMean_getElem? p _ i hi',
      if_neg (fun hc => absurd hc.1 (by omega))]
  · simp [rollingMean, windowAt, List.range_succ]
    norm_num

/-- Witness for C1 at closes `[100, 102, 101, 105, 110]`, `p = 3`. -/
theorem movingAverage_spec_witness :
    (rollingMean 3 ([100, 102, 101, 105, 110].map some)).length = 5 ∧
    rollingMean 3 ([100, 102, 101, 105, 110].map some) =
      [none, none, some 101, some (308/3), some (316/3)] := by
  have h := movingAverage_spec [100, 102, 101, 105, 110] 3 (by norm_num)
  exact ⟨by simpa using h.1, h.2.2.2⟩

/-- C8: the rolling mean is purely causal: appending any bars `T` after the
queried index `i < |S|` leaves the value at `i` unchanged. -/
theorem movingAverage_causal (xs T : List (Option ℚ)) (p i : ℕ) (hp : 0 < p)
    (h : i < xs.length) :
    (rollingMean p (xs ++ T))[i]? = (rollingMean p xs)[i]? := by
  have h' : i < (xs ++ T).length := by simp; omega
  rw [rollingMean_getElem? p _ i h', rollingMean_getElem? p xs i h]
  by_cases hple : p ≤ i + 1
  · rw [windowAt_append p i xs T h hple]
  · rw [if_neg (fun hc => hple hc.1), if_neg (fun hc => hple hc.1)]

/-- Witness for C8: appending `[some 3]` after index 1 of a 2-bar series. -/
theorem movingAverage_causal_witness :
    (rollingMean 2 ([some 1, some 2] ++ [some 3]))[1]? =
      (rollingMean 2 [some 1, some 2])[1]? :=
  movingAverage_causal [some 1, some 2] [some 3] 2 1 (by norm_num) (by norm_num)

theorem fmul100_fdiv_fin_zero_isFinite (a : ℚ) :
    (fmul100 (fdiv (FloatLike.fin a) (FloatLike.fin 0))).isFinite = false := by
  show (fmul100 (if (0 : ℚ) = 0 then
    (if 0 < a then FloatLike.posInf else if a < 0 then FloatLike.negInf
      else FloatLike.nan) else FloatLike.fin (a / 0))).isFinite = false
  rw [if_pos rfl]
  split_ifs <;> rfl

/-- C2 counterexample: on closes `[0, 5]` the reference close is `0`; the
scripts' unguarded change computation still yields `change_abs = 5` but
`change_pct` evaluates to `+∞` — the infinity is propagated silently, and
no `DivisionUndefined` failure is surfaced to the caller (the computation's
result carries no failure marker at all). -/
theorem summary_zero_reference_cex :
    (computeSummary [some 0, some 5]).changeAbs = FloatLike.fin 5 ∧
    (computeSummary [some 0, some 5]).changePct = FloatLike.posInf := by
  constructor <;>
    norm_num [computeSummary, computeSummaryMode, referencePrice, fofOpt,
      fsub, fdiv, fmul100]

/-- C2 (amended): for every non-empty series whose reference (first) close
is `0`, the scripts still compute a valid `change_abs = current - reference`,
but `change_pct` is a silently propagated non-finite float (`+∞`, `-∞` or
NaN depending on the sign of the numerator) rather than a surfaced
`DivisionUndefined` recoverable failure. -/
theorem summary_zero_reference_amended (closes : List ℚ) (c : ℚ)
    (hh : closes.head? = some 0) (hl : closes.getLast? = some c) :
    (computeSummary (closes.map some)).changeAbs = FloatLike.fin (c - 0) ∧
    (computeSummary (closes.map some)).changePct.isFinite = false := by
  have h1 : (closes.map some).getLast? = some (some c) := by
    rw [List.getLast?_map, hl]; rfl
  have h2 : (closes.map some).head? = some (some 0) := by
    rw [List.head?_map, hh]; rfl
  have h3 : referencePrice .firstBar (closes.map some) = some 0 := by
    simp [referencePrice, h2]
  constructor
  · simp only [computeSummary, computeSummaryMode, h1, h3, Option.getD_some,
      fofOpt, fsub]
  · simp only [computeSummary, computeSummaryMode, h1, h3, Option.getD_some,
      fofOpt, fsub]
    exact fmul100_fdiv_fin_zero_isFinite (c - 0)

/-- Witness for the amended C2 at closes `[0, 5]`. -/
theorem summary_zero_reference_amended_witness :
    (computeSummary ([0, 5].map some)).changeAbs = FloatLike.fin (5 - 0) ∧
    (computeSummary ([0, 5].map some)).changePct.isFinite = false :=
  summary_zero_reference_amended [0, 5] 5 rfl rfl

/-- C3 counterexample: the chart builder is not side-effect-free — with
moving averages enabled (periods 1 and 2) on a 3-bar frame, the
moving-average block assigns the columns `MA1` and `MA2` onto the caller's
dataframe, so after the call the input is not exactly as it was before. -/
theorem transformer_mutates_input_cex :
    applyMovingAverages true 1 2
        ⟨[1, 2, 3], none, none, none, [some 1, some 2, some 3], none, []⟩ ≠
      ⟨[1, 2, 3], none, none, none, [some 1, some 2, some 3], none, []⟩ := by
  intro h
  have h2 := congrArg (fun d => d.extra.length) h
  simp [applyMovingAverages, setExtraCol] at h2

/-- C3 (amended): the moving-average block never changes any bar column of
the caller's frame — `date`, `Open`, `High`, `Low`, `price` and `Volume`
are exactly as before the call for every input and configuration — but when
moving averages are enabled and the series is longer than both periods it
adds (or overwrites) the two MA columns on the caller's frame, so the
frame's column set is not restored (the direction-classification and
summary computations only read their inputs and return fresh values). -/
theorem transformer_preserves_bars (showMa : Bool) (p1 p2 : ℕ) (df : DF) :
    (applyMovingAverages showMa p1 p2 df).dateCol = df.dateCol ∧
    (applyMovingAverages showMa p1 p2 df).openCol = df.openCol ∧
    (applyMovingAverages showMa p1 p2 df).highCol = df.highCol ∧
    (applyMovingAverages showMa p1 p2 df).lowCol = df.lowCol ∧
    (applyMovingAverages showMa p1 p2 df).priceCol = df.priceCol ∧
    (applyMovingAverages showMa p1 p2 df).volumeCol = df.volumeCol := by
  unfold applyMovingAverages
  split <;> simp

/-- C4 counterexample: in the close-only fallback mode the tag list is one
entry shorter than the series — on the 2-bar series `[10, 12]` it has
length 1, not 2, so the fallback does not produce one tag per bar. -/
theorem classifyDirection_length_cex :
    (closeToCloseColors [some 10, some 12]).length ≠
      [some (10 : ℚ), some 12].length := by
  simp [closeToCloseColors]

/-- C4 (amended): the OHLC path produces exactly one tag per bar (output
length equals the series length, aligned index-for-index) and its first
element is pinned by the same same-index rule as every other bar (up iff
`close[0] ≥ open[0]`); the close-only fallback instead produces `|S| - 1`
tags, covering bars `1 .. |S|-1` and leaving bar 0 untagged. -/
theorem classifyDirection_amended :
    (∀ opens closes : List (Option ℚ), opens.length = closes.length →
      (colorsVolume opens closes).length = closes.length) ∧
    (∀ closes : List (Option ℚ),
      (closeToCloseColors closes).length = closes.length - 1) ∧
    (∀ (o c : ℚ) (os cs : List (Option ℚ)),
      (colorsVolume (some o :: os) (some c :: cs)).head? =
        some (if o ≤ c then "#26A69A" else "#E53935")) := by
  refine ⟨?_, ?_, ?_⟩
  · intro opens closes h
    simp [colorsVolume, h]
  · intro closes
    simp [closeToCloseColors]
  · intro o c os cs
    rfl

/-- Witness for the amended C4 on 2-bar inputs. -/
theorem classifyDirection_amended_witness :
    (colorsVolume [some 10, some 12] [some 12, some 10]).length = 2 ∧
    (closeToCloseColors [some 10, some 12]).length = 1 := by
  have h := classifyDirection_amended
  exact ⟨by simpa using h.1 [some 10, some 12] [some 12, some 10] rfl,
    by simpa using h.2.1 [some 10, some 12]⟩

theorem tail_getElem? {α : Type} (l : List α) (n : ℕ) :
    l.tail[n]? = l[n + 1]? := by
  cases l <;> simp

/-- C5: for every bar index `i ≥ 1`: in the OHLC path (both cells present)
the tag of bar `i` is up (green) iff `close[i] ≥ open[i]` and down (red)
otherwise; in the close-only fallback the tag of bar `i` (stored at
position `i-1` of the list) is up iff `close[i] ≥ close[i-1]` and down
otherwise; concretely `open = [10, 12]`, `close = [12, 10]` yields tags
`[up, down]`. -/
theorem classifyDirection_rules :
    (∀ (opens closes : List (Option ℚ)) (i : ℕ) (o c : ℚ), 1 ≤ i →
      opens[i]? = some (some o) → closes[i]? = some (some c) →
      (colorsVolume opens closes)[i]? =
        some (if o ≤ c then "#26A69A" else "#E53935")) ∧
    (∀ (closes : List (Option ℚ)) (i : ℕ) (pv c : ℚ), 1 ≤ i →
      closes[i - 1]? = some (some pv) → closes[i]? = some (some c) →
      (closeToCloseColors closes)[i - 1]? =
        some (if pv ≤ c then "#26A69A" else "#E53935")) ∧
    colorsVolume [some 10, some 12] [some 12, some 10] =
      ["#26A69A", "#E53935"] := by
  refine ⟨?_, ?_, ?_⟩
  · intro opens closes i o c _ ho hc
    rw [colorsVolume, zipWith_getElem? volColor opens closes i, ho, hc]
    rfl
  · intro closes i pv c hi h1 h2
    obtain ⟨j, rfl⟩ : ∃ j, i = j + 1 := ⟨i - 1, by omega⟩
    simp only [Nat.add_sub_cancel] at h1 ⊢
    have ht : closes.tail[j]? = some (some c) := by
      rw [tail_getElem? closes j]; exact h2
    rw [closeToCloseColors, zipWith_getElem? c2cColor closes closes.tail j,
      h1, ht]
    rfl
  · simp [colorsVolume, volColor]
    norm_num

/-- Witness for C5: bar 1 of the concrete scenario in both modes. -/
theorem classifyDirection_rules_witness :
    (colorsVolume [some 10, some 12] [some 12, some 10])[1]? =
      some "#E53935" ∧
    (closeToCloseColors [some 100, some 90])[0]? = some "#E53935" := by
  have h := classifyDirection_rules
  constructor
  · have h1 := h.1 [some 10, some 12] [some 12, some 10] 1 12 10
      (by norm_num) rfl rfl
    rw [if_neg (by norm_num)] at h1
    exact h1
  · have h2 := h.2.1 [some 100, some 90] 1 100 90 (by norm_num) rfl rfl
    rw [if_neg (by norm_num)] at h2
    exact h2

/-- C6: an empty frame and the provider's unavailable signal (`None` from
`get_real_data`) are treated identically: the ticker column shows the error
placeholder (which carries no numeric field at all, so no NaN/Inf can leak)
and the chart builder returns the fixed placeholder figure with no traces
and a single text annotation; all the embedded operations are total
functions, so neither case raises. -/
theorem unavailable_and_empty_identical :
    (∀ name currency : String,
      renderTickerColumn none name currency = .errorMessage name) ∧
    (∀ (df : DF) (name currency : String), df.isEmpty = true →
      renderTickerColumn (some df) name currency =
        renderTickerColumn none name currency) ∧
    (∀ (tickerName : String) (cp cpc ca : FloatLike) (currency : String),
      createFinancialChart none tickerName cp cpc ca currency =
        placeholderFig) ∧
    (∀ (df : DF) (tickerName : String) (cp cpc ca : FloatLike)
      (currency : String), df.isEmpty = true →
      createFinancialChart (some df) tickerName cp cpc ca currency =
        placeholderFig) ∧
    placeholderFig.traces = [] ∧
    placeholderFig.annotations = [FigNote.message "Данные недоступны"] := by
  refine ⟨fun _ _ => rfl, ?_, fun _ _ _ _ _ => rfl, ?_, rfl, rfl⟩
  · intro df name currency h
    simp [renderTickerColumn, h]
  · intro df tickerName cp cpc ca currency h
    simp [createFinancialChart, h]

/-- Witness for C6 at an explicit empty frame. -/
theorem unavailable_and_empty_identical_witness :
    renderTickerColumn (some ⟨[], none, none, none, [], none, []⟩)
        "SP500" "USD" = TickerRender.errorMessage "SP500" := by
  have h := unavailable_and_empty_identical
  rw [h.2.1 ⟨[], none, none, none, [], none, []⟩ "SP500" "USD" rfl,
    h.1 "SP500" "USD"]

/-- C7: under the first-bar reference mode the summary takes the first
bar's close as the reference: for every non-empty series with first close
`c0` (nonzero, so that the percent formula denotes) and last close `c`,
the reference is `c0`, `change_abs = c - c0` and
`change_pct = (c - c0) / c0 * 100`; concretely closes `[50, 55]` give
`change_abs = 5` and `change_pct = 10`. -/
theorem summarize_firstBar (closes : List ℚ) (c0 c : ℚ)
    (hh : closes.head? = some c0) (hl : closes.getLast? = some c)
    (h0 : c0 ≠ 0) :
    (computeSummaryMode .firstBar (closes.map some)).prevPrice =
      FloatLike.fin c0 ∧
    (computeSummaryMode .firstBar (closes.map some)).changeAbs =
      FloatLike.fin (c - c0) ∧
    (computeSummaryMode .firstBar (closes.map some)).changePct =
      FloatLike.fin ((c - c0) / c0 * 100) ∧
    computeSummaryMode .firstBar ([50, 55].map some) =
      ⟨FloatLike.fin 55, FloatLike.fin 50, FloatLike.fin 5,
        FloatLike.fin 10⟩ := by
  have h1 : (closes.map some).getLast? = some (some c) := by
    rw [List.getLast?_map, hl]; rfl
  have h3 : referencePrice .firstBar (closes.map some) = some c0 := by
    simp [referencePrice, List.head?_map, hh]
  refine ⟨?_, ?_, ?_, ?_⟩
  · simp only [computeSummaryMode, h1, h3, Option.getD_some, fofOpt]
  · simp only [computeSummaryMode, h1, h3, Option.getD_some, fofOpt, fsub]
  · simp only [computeSummaryMode, h1, h3, Option.getD_some, fofOpt, fsub,
      fdiv, fmul100, if_neg h0]
  · norm_num [computeSummaryMode, referencePrice, fofOpt, fsub, fdiv,
      fmul100]

/-- Witness for C7 at closes `[50, 55]`. -/
theorem summarize_firstBar_witness :
    (computeSummaryMode .firstBar ([50, 55].map some)).changeAbs =
      FloatLike.fin (55 - 50) ∧
    (computeSummaryMode .firstBar ([50, 55].map some)).changePct =
      FloatLike.fin ((55 - 50) / 50 * 100) :=
  let h := summarize_firstBar [50, 55] 50 55 rfl rfl (by norm_num)
  ⟨h.2.1, h.2.2.1⟩

/-- C9: in the line-chart rendering path (non-empty frame without OHLC
columns) the figure holds exactly one line trace over the closes, in one
uniform color determined only by the overall change — red iff
`change_pct < 0`, green otherwise, so an exactly-zero change renders green —
and the per-bar close-to-close tag list computed in that branch appears
nowhere in the output; `finance_charts_app.py`'s line chart obeys the same
uniform rule. -/
theorem line_path_uniform_color :
    (∀ (df : DF) (tickerName : String) (cp cpc ca : FloatLike)
      (currency : String), df.isEmpty = false → df.hasOHLC = false →
      (createFinancialChart (some df) tickerName cp cpc ca currency).traces =
        [Trace.scatterLine df.dateCol df.priceCol
          (if cpc.lt0 then "#E53935" else "#26A69A")
          (if cpc.lt0 then "rgba(229, 57, 53, 0.05)"
            else "rgba(38, 166, 154, 0.05)")]) ∧
    (∀ (df : DF) (tickerName : String) (cp ca : FloatLike)
      (currency : String), df.isEmpty = false → df.hasOHLC = false →
      (createFinancialChart (some df) tickerName cp (.fin 0) ca
          currency).traces =
        [Trace.scatterLine df.dateCol df.priceCol "#26A69A"
          "rgba(38, 166, 154, 0.05)"]) ∧
    (∀ (df : DF) (tickerName : String) (cp cpc ca : FloatLike)
      (currency : String),
      (createFinancialChartApp df tickerName cp cpc ca currency).traces =
        [Trace.scatterLine df.dateCol df.priceCol
          (if cpc.lt0 then "#EF5350" else "#26A69A")
          (if cpc.lt0 then "rgba(239, 83, 80, 0.1)"
            else "rgba(38, 166, 154, 0.1)")]) := by
  refine ⟨?_, ?_, fun _ _ _ _ _ _ => rfl⟩
  · intro df tickerName cp cpc ca currency hne hohlc
    simp [createFinancialChart, hne, hohlc]
  · intro df tickerName cp ca currency hne hohlc
    simp [createFinancialChart, hne, hohlc, FloatLike.lt0]

/-- Witness for C9 at a 1-bar close-only frame with zero change. -/
theorem line_path_uniform_color_witness :
    (createFinancialChart (some ⟨[1], none, none, none, [some 5], none, []⟩)
        "SP500" (.fin 5) (.fin 0) (.fin 0) "USD").traces =
      [Trace.scatterLine [1] [some 5] "#26A69A"
        "rgba(38, 166, 154, 0.05)"] := by
  have h := line_path_uniform_color
  exact h.2.1 ⟨[1], none, none, none, [some 5], none, []⟩ "SP500"
    (.fin 5) (.fin 0) "USD" rfl rfl

/-- C10: the volume-bar coloring is total over series with missing fields
and never fails on them: the color list covers every row; a row whose
`Open` or `price` cell is NaN is colored the neutral gray `#888888`; only a
row with both cells present receives the up (`close ≥ open`, green) or down
(red) color. -/
theorem volume_colors_total :
    (∀ opens closes : List (Option ℚ), opens.length = closes.length →
      (colorsVolume opens closes).length = closes.length) ∧
    (∀ (opens closes : List (Option ℚ)) (i : ℕ) (oc cc : Option ℚ),
      opens[i]? = some oc → closes[i]? = some cc →
      (oc = none ∨ cc = none) →
      (colorsVolume opens closes)[i]? = some "#888888") ∧
    (∀ (opens closes : List (Option ℚ)) (i : ℕ) (o c : ℚ),
      opens[i]? = some (some o) → closes[i]? = some (some c) →
      (colorsVolume opens closes)[i]? =
        some (if o ≤ c then "#26A69A" else "#E53935")) := by
  refine ⟨?_, ?_, ?_⟩
  · intro opens closes h
    simp [colorsVolume, h]
  · intro opens closes i oc cc ho hc hmiss
    rw [colorsVolume, zipWith_getElem? volColor opens closes i, ho, hc]
    rcases hmiss with rfl | rfl
    · cases cc <;> rfl
    · cases oc <;> rfl
  · intro opens closes i o c ho hc
    rw [colorsVolume, zipWith_getElem? volColor opens closes i, ho, hc]
    rfl

/-- Witness for C10: a row with a missing `Open` is gray, a full row is
colored by direction. -/
theorem volume_colors_total_witness :
    (colorsVolume [none, some 10] [some 5, some 12])[0]? =
      some "#888888" ∧
    (colorsVolume [none, some 10] [some 5, some 12])[1]? =
      some "#26A69A" := by
  have h := volume_colors_total
  constructor
  · exact h.2.1 [none, some 10] [some 5, some 12] 0 none (some 5) rfl rfl
      (Or.inl rfl)
  · have h2 := h.2.2 [none, some 10] [some 5, some 12] 1 10 12 rfl rfl
    rw [if_pos (by norm_num)] at h2
    exact h2

end StreamlitFin
